import Mathlib

/-
Shallow embedding of `src/electricitymaps_airflow_scheduler/scheduler.py`.

Modelling conventions:
- `datetime` values (absolute UTC timestamps) and `timedelta` values are
  modelled as integers counting microseconds, the exact resolution of
  Python's `datetime`/`timedelta`.  Addition of a `timedelta` to a
  `datetime` is exact integer addition, as in Python.
- `int(self.expected_duration.total_seconds() / 3600)` truncates the real
  quotient toward zero; on integer microsecond counts this is
  `Int.tdiv d microsecondsPerHour` (Python's `int()` truncates toward zero
  and the division is mathematically exact at these magnitudes).
- The external oracle `schedule_execution` lives in
  `electricitymaps_airflow_scheduler/lib/electricitymaps.py`, which is not
  part of the sources here; the engine treats it as an opaque callable that
  either returns an `OptimizerResponse` or raises.  It is modelled as a
  function into `Except`, and `execute` is given the wall clock reading
  `now` as a parameter.
- `execute` returns the list of oracle calls it performed (so that
  "invoked exactly once, with these arguments" is a provable statement)
  together with its outcome: returning `None` (proceed now), raising
  `TaskDeferred` via `self.defer` (suspend until), or propagating an
  oracle error.
-/

/-- Absolute UTC timestamps, in microseconds since the epoch. -/
abbrev Timestamp := Int

/-- Time spans (`timedelta`), in microseconds. -/
abbrev TimeDelta := Int

/-- Microseconds in one hour: 3600 seconds of 1 000 000 microseconds. -/
def microsecondsPerHour : Int := 3600000000

/-- A geographic coordinate pair `(latitude, longitude)`.  The scheduler
only passes coordinates through, so they are modelled as exact rationals. -/
abbrev Location := Rat × Rat

/-- Modelled from the spec: `lib/electricitymaps.py` is not among the
sources; the optimization-signal enumeration is taken from the spec and the
tests, which name a flow-traced carbon-intensity metric as the default. -/
inductive OptimizationSignal where
  | FLOW_TRACED_CARBON_INTENSITY : OptimizationSignal
deriving DecidableEq

/-- Modelled from the spec: the default optimization signal exported by
`lib/electricitymaps.py` (a flow-traced carbon-intensity metric). -/
def DEFAULT_OPTIMIZATION_SIGNAL : OptimizationSignal :=
  OptimizationSignal.FLOW_TRACED_CARBON_INTENSITY

/-- Modelled from the spec: the oracle's response type from
`lib/electricitymaps.py`.  `execute` only ever reads `optimal_start_time`;
the diagnostics block is observability-only and omitted. -/
structure OptimizerResponse where
  optimal_start_time : Timestamp
  optimal_location : Location
deriving DecidableEq

/-- The keyword arguments of one `schedule_execution` call, exactly as the
operator builds them. -/
structure ScheduleExecutionArgs where
  expected_duration_hours : Int
  end_datetime : Timestamp
  optimization_signal : OptimizationSignal
  locations : List Location
deriving DecidableEq

/-- The external oracle: one synchronous call that either returns a
response or raises (modelled by `Except`, the error being its message). -/
abbrev ScheduleExecution := ScheduleExecutionArgs → Except String OptimizerResponse

/-- The operator's configuration, set in `__init__`. -/
structure ElectricityMapsSchedulerOperator where
  patience : TimeDelta
  expected_duration : TimeDelta
  location : Location
deriving DecidableEq

/-- The continuation name passed to `self.defer`. -/
def executeCompleteName : String := "execute_complete"

/-- The trigger handed to `self.defer`: resume moment plus the
`end_from_trigger` flag. -/
structure DateTimeTrigger where
  moment : Timestamp
  end_from_trigger : Bool
deriving DecidableEq

/-- Outcome of one `execute` call: `proceedNow` models `return None`,
`deferred` models `self.defer(trigger=DateTimeTrigger(...), method_name=...)`
(which raises `TaskDeferred` and registers the suspension with Airflow),
and `raised` models an exception from the oracle propagating out. -/
inductive ExecuteResult where
  | proceedNow : ExecuteResult
  | deferred : DateTimeTrigger → String → ExecuteResult
  | raised : String → ExecuteResult
deriving DecidableEq

/-- The arguments the operator passes to `schedule_execution`:
`expected_duration_hours=int(self.expected_duration.total_seconds() / 3600)`,
`end_datetime=context["execution_date"] + self.expected_duration`,
`optimization_signal=DEFAULT_OPTIMIZATION_SIGNAL`,
`locations=[self.location]`. -/
def buildScheduleExecutionArgs (op : ElectricityMapsSchedulerOperator)
    (execution_date : Timestamp) : ScheduleExecutionArgs where
  expected_duration_hours := Int.tdiv op.expected_duration microsecondsPerHour
  end_datetime := execution_date + op.expected_duration
  optimization_signal := DEFAULT_OPTIMIZATION_SIGNAL
  locations := [op.location]

/-- `ElectricityMapsSchedulerOperator.execute`: call the oracle once with
the arguments above, read the clock, and either return `None` when the
recommended start is strictly in the past or defer until it otherwise.
The first component of the result lists the oracle calls performed. -/
def ElectricityMapsSchedulerOperator.execute
    (op : ElectricityMapsSchedulerOperator)
    (schedule_execution : ScheduleExecution)
    (execution_date now : Timestamp) :
    List ScheduleExecutionArgs × ExecuteResult :=
  match schedule_execution (buildScheduleExecutionArgs op execution_date) with
  | Except.error e =>
      ([buildScheduleExecutionArgs op execution_date], ExecuteResult.raised e)
  | Except.ok optimal_execution =>
      if optimal_execution.optimal_start_time < now then
        ([buildScheduleExecutionArgs op execution_date], ExecuteResult.proceedNow)
      else
        ([buildScheduleExecutionArgs op execution_date],
         ExecuteResult.deferred
           ⟨optimal_execution.optimal_start_time, true⟩ executeCompleteName)

/-- `execute_complete`: the continuation invoked on resume; a no-op. -/
def ElectricityMapsSchedulerOperator.execute_complete
    (_op : ElectricityMapsSchedulerOperator) (_event_list : List String) :
    Option Unit :=
  none

/-- A concrete operator configuration mirroring the test fixture:
patience 4 h, expected duration 1 h, the Paris coordinates. -/
def opParis : ElectricityMapsSchedulerOperator where
  patience := 14400000000
  expected_duration := 3600000000
  location := (488566/10000, 23522/10000)

/-- A configuration with non-positive expected duration and patience. -/
def opNonPositive : ElectricityMapsSchedulerOperator where
  patience := -1
  expected_duration := -3600000000
  location := (0, 0)

/-- A configuration whose expected duration is 30 minutes. -/
def opHalfHour : ElectricityMapsSchedulerOperator where
  patience := 14400000000
  expected_duration := 1800000000
  location := (0, 0)

/-- An oracle that always answers with the given optimal start time. -/
def oracleAt (t : Timestamp) : ScheduleExecution := fun _ =>
  Except.ok { optimal_start_time := t, optimal_location := (0, 0) }

/-- The error message of the always-failing oracle. -/
def transportError : String := "transport error"

/-- An oracle whose call always raises a transport error. -/
def oracleFailing : ScheduleExecution := fun _ =>
  Except.error transportError

/- Helper lemmas shared by the claim theorems. -/

/-- Whatever the oracle does, `execute` performs exactly one oracle call,
with the arguments built by `buildScheduleExecutionArgs`. -/
theorem execute_calls (op : ElectricityMapsSchedulerOperator)
    (schedule_execution : ScheduleExecution) (execution_date now : Timestamp) :
    (op.execute schedule_execution execution_date now).1 =
      [buildScheduleExecutionArgs op execution_date] := by
  unfold ElectricityMapsSchedulerOperator.execute
  cases schedule_execution (buildScheduleExecutionArgs op execution_date) with
  | error e => rfl
  | ok r =>
      dsimp only
      split <;> rfl

/-- Claim C1: when the oracle's optimal start time is at or after `now`,
`execute` defers: the registered trigger's moment equals the oracle's
`optimal_start_time` exactly and the continuation is `execute_complete`;
in particular equality with `now` still defers, because the comparison in
the code is strict less-than. -/
theorem execute_suspends_until_optimal_start_time
    (op : ElectricityMapsSchedulerOperator)
    (schedule_execution : ScheduleExecution)
    (execution_date now : Timestamp) (resp : OptimizerResponse)
    (hok : schedule_execution (buildScheduleExecutionArgs op execution_date) =
      Except.ok resp)
    (hge : now ≤ resp.optimal_start_time) :
    op.execute schedule_execution execution_date now =
      ([buildScheduleExecutionArgs op execution_date],
       ExecuteResult.deferred ⟨resp.optimal_start_time, true⟩
         executeCompleteName) := by
  unfold ElectricityMapsSchedulerOperator.execute
  rw [hok]
  dsimp only
  rw [if_neg (not_lt.mpr hge)]

/-- Witness for C1 at the boundary: the oracle recommends exactly `now`,
and the operator still defers, to `now`, with `execute_complete`. -/
theorem execute_suspends_until_optimal_start_time_witness :
    opParis.execute (oracleAt 1000) 0 1000 =
      ([buildScheduleExecutionArgs opParis 0],
       ExecuteResult.deferred ⟨1000, true⟩ executeCompleteName) :=
  execute_suspends_until_optimal_start_time opParis (oracleAt 1000) 0 1000
    { optimal_start_time := 1000, optimal_location := (0, 0) } rfl (by decide)

/-- Claim C2: when the oracle's optimal start time is strictly before
`now`, `execute` returns immediately (`return None`) and registers no
suspension. -/
theorem execute_proceeds_now_when_optimal_in_past
    (op : ElectricityMapsSchedulerOperator)
    (schedule_execution : ScheduleExecution)
    (execution_date now : Timestamp) (resp : OptimizerResponse)
    (hok : schedule_execution (buildScheduleExecutionArgs op execution_date) =
      Except.ok resp)
    (hlt : resp.optimal_start_time < now) :
    op.execute schedule_execution execution_date now =
      ([buildScheduleExecutionArgs op execution_date],
       ExecuteResult.proceedNow) := by
  unfold ElectricityMapsSchedulerOperator.execute
  rw [hok]
  dsimp only
  rw [if_pos hlt]

/-- Witness for C2: optimal start 1000 is before now 2000, so the call
proceeds immediately. -/
theorem execute_proceeds_now_when_optimal_in_past_witness :
    opParis.execute (oracleAt 1000) 0 2000 =
      ([buildScheduleExecutionArgs opParis 0], ExecuteResult.proceedNow) :=
  execute_proceeds_now_when_optimal_in_past opParis (oracleAt 1000) 0 2000
    { optimal_start_time := 1000, optimal_location := (0, 0) } rfl (by decide)

/-- Counterexample to claim C3 as stated: with a non-positive expected
duration and non-positive patience the request is NOT rejected before the
oracle call — the oracle is invoked anyway (the call trace is non-empty). -/
theorem no_precondition_rejection_counterexample :
    opNonPositive.expected_duration ≤ 0 ∧ opNonPositive.patience ≤ 0 ∧
    (opNonPositive.execute (oracleAt 0) 0 0).1 ≠ [] := by
  refine ⟨by decide, by decide, ?_⟩
  rw [execute_calls]
  exact List.cons_ne_nil _ _

/-- Claim C3 (amended): the operator performs no precondition validation.
Even when `expected_duration` or `patience` is non-positive, the oracle is
still invoked (exactly once); and the `locations` list it sends is the
singleton `[op.location]`, so the empty-locations case can never arise. -/
theorem execute_never_rejects
    (op : ElectricityMapsSchedulerOperator)
    (schedule_execution : ScheduleExecution)
    (execution_date now : Timestamp)
    (_h : op.expected_duration ≤ 0 ∨ op.patience ≤ 0) :
    (op.execute schedule_execution execution_date now).1 =
      [buildScheduleExecutionArgs op execution_date] ∧
    (buildScheduleExecutionArgs op execution_date).locations ≠ [] := by
  refine ⟨execute_calls op schedule_execution execution_date now, ?_⟩
  exact List.cons_ne_nil _ _

/-- Witness for the amended C3 at a non-positive configuration. -/
theorem execute_never_rejects_witness :
    (opNonPositive.execute (oracleAt 0) 0 0).1 =
      [buildScheduleExecutionArgs opNonPositive 0] ∧
    (buildScheduleExecutionArgs opNonPositive 0).locations ≠ [] :=
  execute_never_rejects opNonPositive (oracleAt 0) 0 0 (Or.inl (by decide))

/-- Claim C4: `execute` invokes the oracle exactly once; the duration
argument is the expected duration truncated toward zero to whole hours
(for non-negative durations, characterised as the floor: the whole-hour
value is the largest hour count not exceeding the duration); the locations
are passed through unmodified as the configured candidate list. -/
theorem execute_invokes_oracle_once_with_truncated_hours
    (op : ElectricityMapsSchedulerOperator)
    (schedule_execution : ScheduleExecution)
    (execution_date now : Timestamp)
    (hd : 0 ≤ op.expected_duration) :
    (op.execute schedule_execution execution_date now).1 =
      [buildScheduleExecutionArgs op execution_date] ∧
    (buildScheduleExecutionArgs op execution_date).expected_duration_hours =
      Int.tdiv op.expected_duration microsecondsPerHour ∧
    (buildScheduleExecutionArgs op execution_date).locations = [op.location] ∧
    microsecondsPerHour *
        (buildScheduleExecutionArgs op execution_date).expected_duration_hours ≤
      op.expected_duration ∧
    op.expected_duration <
      microsecondsPerHour *
        ((buildScheduleExecutionArgs op execution_date).expected_duration_hours
          + 1) := by
  have hrw : Int.tdiv op.expected_duration microsecondsPerHour =
      op.expected_duration / microsecondsPerHour :=
    Int.tdiv_eq_ediv hd (by decide)
  refine ⟨execute_calls op schedule_execution execution_date now, rfl, rfl,
    ?_, ?_⟩
  · show microsecondsPerHour *
        Int.tdiv op.expected_duration microsecondsPerHour ≤
      op.expected_duration
    rw [hrw, Int.mul_comm]
    exact Int.ediv_mul_le op.expected_duration (by decide)
  · show op.expected_duration <
      microsecondsPerHour *
        (Int.tdiv op.expected_duration microsecondsPerHour + 1)
    rw [hrw, Int.mul_comm]
    exact Int.lt_ediv_add_one_mul_self op.expected_duration (by decide)

/-- Witness for C4 at the Paris fixture (duration exactly one hour). -/
theorem execute_invokes_oracle_once_with_truncated_hours_witness :
    (opParis.execute (oracleAt 0) 0 0).1 =
      [buildScheduleExecutionArgs opParis 0] ∧
    (buildScheduleExecutionArgs opParis 0).expected_duration_hours =
      Int.tdiv opParis.expected_duration microsecondsPerHour ∧
    (buildScheduleExecutionArgs opParis 0).locations = [opParis.location] ∧
    microsecondsPerHour *
        (buildScheduleExecutionArgs opParis 0).expected_duration_hours ≤
      opParis.expected_duration ∧
    opParis.expected_duration <
      microsecondsPerHour *
        ((buildScheduleExecutionArgs opParis 0).expected_duration_hours + 1) :=
  execute_invokes_oracle_once_with_truncated_hours opParis (oracleAt 0) 0 0
    (by decide)

/-- Claim C5: the deadline (`end_datetime`) passed to the oracle on every
call equals `execution_date + expected_duration` exactly, with no rounding
or clamping. -/
theorem deadline_is_exact_sum
    (op : ElectricityMapsSchedulerOperator)
    (schedule_execution : ScheduleExecution)
    (execution_date now : Timestamp) :
    ((op.execute schedule_execution execution_date now).1.map
      (fun c => c.end_datetime)) =
      [execution_date + op.expected_duration] := by
  rw [execute_calls]
  rfl

/-- Claim C6: `patience` never influences the oracle-call arguments or the
decision outcome — two operators differing only in `patience` build the
same oracle arguments and produce identical `execute` results on every
oracle, execution date and clock reading. -/
theorem patience_does_not_influence_decision
    (p₁ p₂ d : TimeDelta) (loc : Location)
    (schedule_execution : ScheduleExecution)
    (execution_date now : Timestamp) :
    buildScheduleExecutionArgs ⟨p₁, d, loc⟩ execution_date =
      buildScheduleExecutionArgs ⟨p₂, d, loc⟩ execution_date ∧
    ElectricityMapsSchedulerOperator.execute ⟨p₁, d, loc⟩
        schedule_execution execution_date now =
      ElectricityMapsSchedulerOperator.execute ⟨p₂, d, loc⟩
        schedule_execution execution_date now :=
  ⟨rfl, rfl⟩

/-- Claim C7: holding the reference time fixed, the deadline passed to the
oracle is monotonically non-decreasing in the basis span. -/
theorem deadline_monotone_in_span
    (p : TimeDelta) (loc : Location) (execution_date : Timestamp)
    (s₁ s₂ : TimeDelta) (h : s₁ ≤ s₂) :
    (buildScheduleExecutionArgs ⟨p, s₁, loc⟩ execution_date).end_datetime ≤
      (buildScheduleExecutionArgs ⟨p, s₂, loc⟩ execution_date).end_datetime := by
  show execution_date + s₁ ≤ execution_date + s₂
  exact Int.add_le_add_left h execution_date

/-- Witness for C7: spans of one and two hours. -/
theorem deadline_monotone_in_span_witness :
    (buildScheduleExecutionArgs ⟨0, 3600000000, (0, 0)⟩ 0).end_datetime ≤
      (buildScheduleExecutionArgs ⟨0, 7200000000, (0, 0)⟩ 0).end_datetime :=
  deadline_monotone_in_span 0 (0, 0) 0 3600000000 7200000000 (by decide)

/-- Claim C8: if the oracle raises, `execute` propagates the error
unchanged — no retry (still exactly one call) and no suspension or
outcome is produced. -/
theorem execute_propagates_oracle_error
    (op : ElectricityMapsSchedulerOperator)
    (schedule_execution : ScheduleExecution)
    (execution_date now : Timestamp) (e : String)
    (herr : schedule_execution (buildScheduleExecutionArgs op execution_date) =
      Except.error e) :
    op.execute schedule_execution execution_date now =
      ([buildScheduleExecutionArgs op execution_date],
       ExecuteResult.raised e) := by
  unfold ElectricityMapsSchedulerOperator.execute
  rw [herr]

/-- Witness for C8 with the always-failing oracle. -/
theorem execute_propagates_oracle_error_witness :
    opParis.execute oracleFailing 0 0 =
      ([buildScheduleExecutionArgs opParis 0],
       ExecuteResult.raised transportError) :=
  execute_propagates_oracle_error opParis oracleFailing 0 0 transportError rfl

/-- Claim C9: a positive expected duration strictly shorter than one hour
yields a duration-in-hours argument of 0, below the oracle interface's
stated minimum of 1; no lower-bound adjustment is applied. -/
theorem subhour_duration_gives_zero_hours
    (op : ElectricityMapsSchedulerOperator) (execution_date : Timestamp)
    (h0 : 0 < op.expected_duration)
    (h1 : op.expected_duration < microsecondsPerHour) :
    (buildScheduleExecutionArgs op execution_date).expected_duration_hours = 0 ∧
    (buildScheduleExecutionArgs op execution_date).expected_duration_hours < 1 := by
  have hz : Int.tdiv op.expected_duration microsecondsPerHour = 0 :=
    Int.tdiv_eq_zero_of_lt (le_of_lt h0) h1
  refine ⟨hz, ?_⟩
  show Int.tdiv op.expected_duration microsecondsPerHour < 1
  rw [hz]
  decide

/-- Witness for C9: a 30-minute expected duration. -/
theorem subhour_duration_gives_zero_hours_witness :
    (buildScheduleExecutionArgs opHalfHour 0).expected_duration_hours = 0 ∧
    (buildScheduleExecutionArgs opHalfHour 0).expected_duration_hours < 1 :=
  subhour_duration_gives_zero_hours opHalfHour 0 (by decide) (by decide)

/-- Claim C10: every oracle call made by `execute` carries a singleton
locations list — exactly the configured coordinate pair — so the list is
never empty and never holds several candidates. -/
theorem oracle_locations_singleton
    (op : ElectricityMapsSchedulerOperator)
    (schedule_execution : ScheduleExecution)
    (execution_date now : Timestamp) (c : ScheduleExecutionArgs)
    (hc : c ∈ (op.execute schedule_execution execution_date now).1) :
    c.locations = [op.location] ∧ c.locations.length = 1 := by
  rw [execute_calls] at hc
  rcases List.mem_singleton.mp hc with rfl
  exact ⟨rfl, rfl⟩

/-- Witness for C10 at the Paris fixture. -/
theorem oracle_locations_singleton_witness :
    (buildScheduleExecutionArgs opParis 0).locations = [opParis.location] ∧
    (buildScheduleExecutionArgs opParis 0).locations.length = 1 :=
  oracle_locations_singleton opParis (oracleAt 0) 0 0
    (buildScheduleExecutionArgs opParis 0)
    (by rw [execute_calls]; exact List.mem_singleton.mpr rfl)
